import Mathlib

set_option maxRecDepth 8000

/-
Verification of substrate-timetravel core components.

Shallow embedding of the election-analysis engine: the stake-aggregation
utility (src/utils.rs), the minimum-active-stake scanner and the DPoS miner
(src/gadgets.rs), the ledger consistency checker
(src/gadgets/staking_ledger.rs), the analysis operation control flow
(src/operations.rs) and the command result handling in main (src/main.rs).

Machine integers are modelled as Nat; a Rust panic (division by zero,
expect or unwrap on a missing value) is modelled as the Option value none.
The two f32 constant multiplications of the Pareto distribution are modelled
exactly: 0.8f32 is 13421773 divided by 2 to the 24 and 0.2f32 is 13421773
divided by 2 to the 26, products are rounded to the nearest 24-bit
significand, ties to even, as IEEE-754 binary32 prescribes, then truncated
toward zero by the integer cast.
-/

abbrev AccountId := Nat

/-- Fuel-driven base-2 logarithm, kernel-reducible. With fuel at least the
bit length of n it returns the position of the leading bit of n. -/
def natLog2Aux : Nat → Nat → Nat
  | 0, _ => 0
  | fuel + 1, n => if n ≤ 1 then 0 else natLog2Aux fuel (n / 2) + 1

/-- Base-2 logarithm of a natural number below 2 ^ 128 (position of the
leading bit, 0 for 0 and 1). -/
def natLog2 (n : Nat) : Nat := natLog2Aux 128 n

/-- Round a natural number to the nearest value representable with a 24-bit
significand (an integral f32), ties to even. Models the Rust cast of an
integer to f32. -/
def roundF32Int (w : Nat) : Nat :=
  if w = 0 then 0
  else
    let b := natLog2 w
    if b ≤ 23 then w
    else
      let drop := b - 23
      let q := w / 2 ^ drop
      let r := w % 2 ^ drop
      let half := 2 ^ (drop - 1)
      let q' := if half < r then q + 1 else if r < half then q else if q % 2 = 0 then q else q + 1
      q' * 2 ^ drop

/-- Round the exact rational p divided by 2 to the s to the nearest f32
value (24-bit significand, ties to even) and truncate the result toward
zero. Models a Rust f32 multiplication whose exact product is p divided by
2 to the s, followed by an integer cast. -/
def roundF32ThenTrunc (p s : Nat) : Nat :=
  if p = 0 then 0
  else
    let b := natLog2 p
    if b ≤ 23 then p / 2 ^ s
    else
      let drop := b - 23
      let q := p / 2 ^ drop
      let r := p % 2 ^ drop
      let half := 2 ^ (drop - 1)
      let q' := if half < r then q + 1 else if r < half then q else if q % 2 = 0 then q else q + 1
      q' * 2 ^ drop / 2 ^ s

/-- Rust expression (x as f32 * C) as an integer, where the f32 constant C
is mC divided by 2 to the sC. -/
def f32MulConstTrunc (x mC sC : Nat) : Nat :=
  roundF32ThenTrunc (roundF32Int x * mC) sC

/-- The Rust expression (len as f32 * 0.8) as usize from share_distribution
(src/utils.rs line 51). 0.8f32 is exactly 13421773 / 2 ^ 24. -/
def pareto_split_index (len : Nat) : Nat := f32MulConstTrunc len 13421773 24

/-- The Rust expression (weight as f32 * 0.2) as u64 from share_distribution
(src/utils.rs line 54). 0.2f32 is exactly 13421773 / 2 ^ 26. -/
def pareto_twenty_total (weight : Nat) : Nat := f32MulConstTrunc weight 13421773 26

/-- The Rust expression (weight as f32 * 0.8) as u64 from share_distribution
(src/utils.rs line 57). -/
def pareto_eighty_total (weight : Nat) : Nat := f32MulConstTrunc weight 13421773 24

/-- Stable insertion of an element into a list already sorted by a Nat key:
the element goes before the first entry of greater or equal key. -/
def insertByKey {α : Type} (key : α → Nat) (x : α) : List α → List α
  | [] => [x]
  | y :: ys => if key x ≤ key y then x :: y :: ys else y :: insertByKey key x ys

/-- Stable sort of a list by a Nat key, ascending. Models the Rust stable
sort_by_key. -/
def sortByKey {α : Type} (key : α → Nat) : List α → List α
  | [] => []
  | x :: xs => insertByKey key x (sortByKey key xs)

/-- Aggregate stake nominated to target t: each voter contributes its stake
once per occurrence of t in its target list, as the BTreeMap accumulation in
SortedTargets::from_voters does (src/utils.rs lines 19 to 23). -/
def aggregateStake (voters : List (AccountId × Nat × List AccountId)) (t : AccountId) : Nat :=
  (voters.map (fun v => v.2.1 * v.2.2.count t)).sum

/-- The distinct targets nominated by some voter, in ascending order: the key
set of the BTreeMap built by SortedTargets::from_voters. -/
def targetKeys (voters : List (AccountId × Nat × List AccountId)) : List AccountId :=
  sortByKey id ((voters.map (fun v => v.2.2)).flatten.dedup)

/-- Embedding of SortedTargets::from_voters (src/utils.rs lines 13 to 29):
the targets sorted ascending by aggregate nominated stake; the Rust
sort_by_key is stable, so ties keep the BTreeMap key order, ascending by
target identifier. -/
def SortedTargets.from_voters (voters : List (AccountId × Nat × List AccountId)) : List AccountId :=
  sortByKey (aggregateStake voters) (targetKeys voters)

inductive ShareDistribution
  | ProRata
  | Pareto
deriving Repr, DecidableEq

/-- Embedding of share_distribution (src/utils.rs lines 32 to 73). A Rust
integer division by zero panics; a panic is modelled as none. ProRata divides
the weight by the length of the target list; Pareto splits the list at
floor(len as f32 * 0.8) and divides 20 percent of the weight among the bottom
part and 80 percent among the top part. -/
def share_distribution (sorted_targets : List AccountId) (weight : Nat)
    (distribution : ShareDistribution) : Option (List (AccountId × Nat)) :=
  match distribution with
  | .ProRata =>
    if sorted_targets.length = 0 then none
    else some (sorted_targets.map (fun t => (t, weight / sorted_targets.length)))
  | .Pareto =>
    let split_index := pareto_split_index sorted_targets.length
    let bottom_eighty := sorted_targets.take split_index
    let top_twenty := sorted_targets.drop split_index
    if bottom_eighty.length = 0 then none
    else
      let twenty_share := pareto_twenty_total weight / bottom_eighty.length
      if top_twenty.length = 0 then none
      else
        let eighty_share := pareto_eighty_total weight / top_twenty.length
        some (bottom_eighty.map (fun t => (t, twenty_share)) ++
              top_twenty.map (fun t => (t, eighty_share)))

/-- The u64 maximum, the sentinel used by min_active_stake. -/
def U64_MAX : Nat := 2 ^ 64 - 1

/-- Embedding of the scan loop of min_active_stake (src/gadgets.rs lines 162
to 191). Arguments: the remaining sorted voter weights, the length of the
all_voters vector so far (one push per accepted voter), the running minimum
and the voters_seen counter. Returns the final (min_active_stake,
all_voters length, voters_seen). -/
def min_active_stake_loop (max_allowed_len : Nat) (voters : List Nat)
    (accepted min_stake seen : Nat) : Nat × Nat × Nat :=
  match voters with
  | [] => (min_stake, accepted, seen)
  | w :: rest =>
    if accepted < max_allowed_len ∧ seen < 2 * max_allowed_len then
      if w = 0 then
        min_active_stake_loop max_allowed_len rest accepted min_stake (seen + 1)
      else
        min_active_stake_loop max_allowed_len rest (accepted + 1)
          (if w < min_stake then w else min_stake) (seen + 1)
    else (min_stake, accepted, seen)

/-- Embedding of min_active_stake (src/gadgets.rs lines 142 to 194). The
voter list stands for the weights weight_of produces along the sorted
VoterList iteration; maybe_max_len is Some(MaxElectingVoters). -/
def min_active_stake (voter_weights : List Nat) (maybe_max_len : Option Nat) : Nat :=
  let all_voter_count := voter_weights.length
  let max_allowed_len := min (maybe_max_len.getD all_voter_count) all_voter_count
  (min_active_stake_loop max_allowed_len voter_weights 0 U64_MAX 0).1

structure ElectionScore where
  minimal_stake : Nat
  sum_stake : Nat
  sum_stake_squared : Nat
deriving Repr, DecidableEq

structure StakedAssignment where
  who : AccountId
  distribution : List (AccountId × Nat)
deriving Repr, DecidableEq

/-- Modelled from the spec: the external score evaluator (spec section 4.4,
sp_npos_elections EvaluateSupport, not part of src). minimal_stake is the
smallest total among the supports, sum_stake their sum, sum_stake_squared
the sum of squares; empty input gives the all-zero score. -/
def evaluate (supports : List (AccountId × Nat)) : ElectionScore :=
  { minimal_stake :=
      match supports.map Prod.snd with
      | [] => 0
      | t :: ts => ts.foldl min t,
    sum_stake := (supports.map Prod.snd).sum,
    sum_stake_squared := (supports.map (fun p => p.2 * p.2)).sum }

/-- Modelled from the spec: total stake assigned to target t across all
assignments (spec section 3, the Support invariant; sp_npos_elections
to_supports, not part of src). -/
def support_total (assignments : List StakedAssignment) (t : AccountId) : Nat :=
  (assignments.map (fun a => ((a.distribution.filter (fun p => p.1 == t)).map Prod.snd).sum)).sum

/-- Modelled from the spec: the external to_supports aggregation used by
mine_dpos (src/gadgets.rs line 330): one entry per distinct assigned target,
in ascending target order, carrying the total stake assigned to it. -/
def to_supports (assignments : List StakedAssignment) : List (AccountId × Nat) :=
  (sortByKey id ((assignments.map (fun a => a.distribution.map Prod.fst)).flatten.dedup)).map
    (fun t => (t, support_total assignments t))

/-- The skip condition of mine_dpos (src/gadgets.rs line 306): a voter is
good when its target list is nonempty and its stake nonzero. -/
def good_voter (v : AccountId × Nat × List AccountId) : Bool :=
  !(v.2.2.isEmpty || v.2.1 == 0)

/-- The assignment-building loop of mine_dpos (src/gadgets.rs lines 305 to
328): bad voters are skipped, every other voter receives the
share_distribution of its stake over the aggregate-sorted target list. A
panic inside share_distribution propagates as none. -/
def dpos_assignments (sorted_targets : List AccountId) (distribution_type : ShareDistribution) :
    List (AccountId × Nat × List AccountId) → Option (List StakedAssignment)
  | [] => some []
  | v :: rest =>
    if good_voter v then
      match share_distribution sorted_targets v.2.1 distribution_type with
      | none => none
      | some shares =>
        match dpos_assignments sorted_targets distribution_type rest with
        | none => none
        | some tail => some ({ who := v.1, distribution := shares } :: tail)
    else dpos_assignments sorted_targets distribution_type rest

/-- The winner selection of mine_dpos (src/gadgets.rs lines 330 to 338):
stable ascending sort of the supports by total, reversed, truncated to
desired_targets entries. -/
def dpos_winners (supports : List (AccountId × Nat)) (desired_targets : Nat) :
    List (AccountId × Nat) :=
  ((sortByKey (fun p => p.2) supports).reverse).take desired_targets

/-- Embedding of mine_dpos (src/gadgets.rs lines 283 to 356) on a snapshot
given by its voter list and DesiredTargets value: build the aggregate-sorted
target list, distribute each good voter stake over it, aggregate supports,
retain the top desired_targets supports and evaluate them. A panic is
modelled as none. -/
def mine_dpos (voters : List (AccountId × Nat × List AccountId)) (desired_targets : Nat)
    (distribution_type : ShareDistribution) : Option ElectionScore :=
  let sorted_targets_by_stake := SortedTargets.from_voters voters
  match dpos_assignments sorted_targets_by_stake distribution_type voters with
  | none => none
  | some assignments =>
    some (evaluate (dpos_winners (to_supports assignments) desired_targets))

structure StakingLedger where
  stash : AccountId
deriving Repr, DecidableEq

/-- Embedding of ledger_checks (src/gadgets/staking_ledger.rs lines 9 to 37):
walk the Ledger entries (controller, ledger); a stash is accumulated as bad
when Bonded has no entry at ledger.stash or the Bonded controller there is
not the iterated controller. -/
def ledger_checks (ledgers : List (AccountId × StakingLedger))
    (bonded : AccountId → Option AccountId) : List AccountId :=
  match ledgers with
  | [] => []
  | (controller, ledger) :: rest =>
    match bonded ledger.stash with
    | some bonded_controller =>
      if controller ≠ bonded_controller then ledger.stash :: ledger_checks rest bonded
      else ledger_checks rest bonded
    | none => ledger.stash :: ledger_checks rest bonded

/-- Embedding of bonded_checks (src/gadgets/staking_ledger.rs lines 39 to
67): walk the Bonded entries (stash, controller) and build, in order, the
lists none_ledgers, inconsistent_ledgers and ok_ledgers. Note the source
pushes to ok_ledgers in the same branch that pushes to
inconsistent_ledgers. -/
def bonded_checks (bonded : List (AccountId × AccountId))
    (ledger : AccountId → Option StakingLedger) :
    List (AccountId × AccountId) × List (AccountId × AccountId) × List AccountId :=
  match bonded with
  | [] => ([], [], [])
  | (stash, controller) :: rest =>
    let out := bonded_checks rest ledger
    match ledger controller with
    | none => ((stash, controller) :: out.1, out.2.1, out.2.2)
    | some l =>
      if l.stash ≠ stash then (out.1, (stash, l.stash) :: out.2.1, stash :: out.2.2)
      else (out.1, out.2.1, stash :: out.2.2)

/-- Insertion into a keyed storage map. -/
def map_insert {β : Type} (m : AccountId → Option β) (k : AccountId) (v : β) :
    AccountId → Option β :=
  fun x => if x = k then some v else m x

/-- Removal from a keyed storage map. -/
def map_remove {β : Type} (m : AccountId → Option β) (k : AccountId) :
    AccountId → Option β :=
  fun x => if x = k then none else m x

/-- The staking storage acted on by the migration simulation: the Bonded
relation (stash to controller) and the Ledger map (controller to ledger). -/
structure StakingState where
  bonded : AccountId → Option AccountId
  ledger : AccountId → Option StakingLedger

/-- One iteration of deprecate_controller_simulation
(src/gadgets/staking_ledger.rs lines 175 to 191): look the ledger up by the
controller key, a missing ledger is a panic (the expect), modelled none;
otherwise self-bond the stash, remove the Ledger entry at the controller key
and insert the ledger at the stash key. -/
def deprecate_controller_step (st : StakingState) (stash controller : AccountId) :
    Option StakingState :=
  match st.ledger controller with
  | none => none
  | some l =>
    some { bonded := map_insert st.bonded stash stash,
           ledger := map_insert (map_remove st.ledger controller) stash l }

/-- Embedding of deprecate_controller_simulation
(src/gadgets/staking_ledger.rs lines 174 to 192) over a batch of
(stash, controller) pairs, threading the parent-side staking state. -/
def deprecate_controller_simulation (batch : List (AccountId × AccountId))
    (st : StakingState) : Option StakingState :=
  match batch with
  | [] => some st
  | (stash, controller) :: rest =>
    match deprecate_controller_step st stash controller with
    | none => none
    | some st2 => deprecate_controller_simulation rest st2

structure RawSolution where
  score : ElectionScore
deriving Repr, DecidableEq

structure SnapshotMeta where
  voters : Nat
  targets : Nat
deriving Repr, DecidableEq

/-- The CSV row of the election analysis (ElectionEntryCSV,
src/operations.rs lines 76 to 101). -/
structure ElectionEntryCSV where
  block_number : Nat
  active_era : Nat
  phrag_min_stake : Nat
  phrag_sum_stake : Nat
  phrag_sum_stake_squared : Nat
  phrag_unbound_min_stake : Nat
  phrag_unbound_sum_stake : Nat
  phrag_unbound_sum_stake_squared : Nat
  dpos_min_stake : Nat
  dpos_sum_stake : Nat
  dpos_sum_stake_squared : Nat
  dpos_unbound_min_stake : Nat
  dpos_unbound_sum_stake : Nat
  dpos_unbound_sum_stake_squared : Nat
  voters : Nat
  targets : Nat
  snapshot_size : Nat
  voters_unbound : Nat
  targets_unbound : Nat
  snapshot_size_unbound : Nat
  min_active_stake : Nat
deriving Repr, DecidableEq

/-- Embedding of ElectionEntryCSV::new (src/operations.rs lines 104 to 175). -/
def ElectionEntryCSV.new (block_number : Nat) (active_era : Option Nat)
    (phrag_solutions : RawSolution × RawSolution)
    (dpos_score dpos_unbounded_score : ElectionScore)
    (snapshot_metadata : SnapshotMeta) (snapshot_size : Nat)
    (snapshot_metadata_unbound : SnapshotMeta) (snapshot_size_unbound : Nat)
    (min_active_stake : Nat) : ElectionEntryCSV :=
  { block_number := block_number,
    active_era := match active_era with | some era => era | none => 0,
    phrag_min_stake := phrag_solutions.1.score.minimal_stake,
    phrag_sum_stake := phrag_solutions.1.score.sum_stake,
    phrag_sum_stake_squared := phrag_solutions.1.score.sum_stake_squared,
    phrag_unbound_min_stake := phrag_solutions.2.score.minimal_stake,
    phrag_unbound_sum_stake := phrag_solutions.2.score.sum_stake,
    phrag_unbound_sum_stake_squared := phrag_solutions.2.score.sum_stake_squared,
    dpos_min_stake := dpos_score.minimal_stake,
    dpos_sum_stake := dpos_score.sum_stake,
    dpos_sum_stake_squared := dpos_score.sum_stake_squared,
    dpos_unbound_min_stake := dpos_unbounded_score.minimal_stake,
    dpos_unbound_sum_stake := dpos_unbounded_score.sum_stake,
    dpos_unbound_sum_stake_squared := dpos_unbounded_score.sum_stake_squared,
    voters := snapshot_metadata.voters,
    targets := snapshot_metadata.targets,
    snapshot_size := snapshot_size,
    voters_unbound := snapshot_metadata_unbound.voters,
    targets_unbound := snapshot_metadata_unbound.targets,
    snapshot_size_unbound := snapshot_size_unbound,
    min_active_stake := min_active_stake }

/-- Outcomes of the effectful gadget calls made by one run of the
election_analysis operation (src/operations.rs lines 187 to 231), in program
order. snapshot_data_or_force (src/gadgets.rs lines 38 to 63) is infallible
by signature but panics on failure (the create_snapshot unwrap at line 52
and the expect calls at lines 56 to 58): its outcome is an Option, none
modelling that panic. Each Result-returning gadget is represented by the
Except outcome of its call on the given externalities, each infallible one
by its value. -/
structure ElectionAnalysisGadgets where
  snapshot_data : Option (SnapshotMeta × Nat)
  min_active_stake : Nat
  block_number : Nat
  active_era : Option Nat
  phrag : Except String RawSolution
  dpos : Except String ElectionScore
  unbounded_snapshot : Except String (SnapshotMeta × Nat)
  phrag_unbound : Except String RawSolution
  dpos_unbound : Except String ElectionScore
  write_csv : Except String Unit

/-- Embedding of the election_analysis operation body (src/operations.rs
lines 190 to 228). snapshot_data_or_force runs first; if it panics the whole
run aborts without returning an error, modelled by the outer none. Every
Result-returning gadget is unwrapped with the question mark operator, so the
first error returns before anything later runs. The inner second component
is the entry handed to write_csv, none when write_csv was never called. -/
def election_analysis (g : ElectionAnalysisGadgets) :
    Option (Except String Unit × Option ElectionEntryCSV) :=
  match g.snapshot_data with
  | none => none
  | some snapshot_data =>
    match g.phrag with
    | .error e => some (.error e, none)
    | .ok phrag_raw_solution =>
      match g.dpos with
      | .error e => some (.error e, none)
      | .ok dpos_score =>
        match g.unbounded_snapshot with
        | .error e => some (.error e, none)
        | .ok unbound =>
          match g.phrag_unbound with
          | .error e => some (.error e, none)
          | .ok phrag_unbound_raw_solution =>
            match g.dpos_unbound with
            | .error e => some (.error e, none)
            | .ok dpos_unbound_score =>
              let entry := ElectionEntryCSV.new g.block_number g.active_era
                (phrag_raw_solution, phrag_unbound_raw_solution)
                dpos_score dpos_unbound_score
                snapshot_data.1 snapshot_data.2 unbound.1 unbound.2
                g.min_active_stake
              some (g.write_csv, some entry)

/-- Embedding of the transform branch of main (src/main.rs lines 262 to
283): the command result is map_err-logged and then unwrapped. The first
component models the process outcome, none meaning the unwrap panicked and
the process crashed; the second component is the log output. -/
def main_handle_transform (r : Except String Unit) : Option Unit × List String :=
  match r with
  | .ok _ => (some (), [])
  | .error e => (none, ["Transform error: " ++ e])

/-- Embedding of the extract branch of main (src/main.rs lines 248 to 261):
same map_err plus unwrap pattern as the transform branch. -/
def main_handle_extract (r : Except String Unit) : Option Unit × List String :=
  match r with
  | .ok _ => (some (), [])
  | .error e => (none, ["Extract error: " ++ e])


/-- A concrete parent-side staking state: no bonded entries, one ledger at
controller key 10 whose embedded stash is 7. -/
def deprecate_example_state : StakingState :=
  { bonded := fun _ => none,
    ledger := fun c => if c = 10 then some ⟨7⟩ else none }

/-- A concrete gadget outcome record whose bounded snapshot computation
panics, every later step being ready to succeed. -/
def panic_gadgets : ElectionAnalysisGadgets :=
  { snapshot_data := none,
    min_active_stake := 9,
    block_number := 14401871,
    active_era := some 900,
    phrag := .ok ⟨⟨1, 2, 4⟩⟩,
    dpos := .ok ⟨1, 2, 4⟩,
    unbounded_snapshot := .ok (⟨5, 2⟩, 70),
    phrag_unbound := .ok ⟨⟨1, 2, 4⟩⟩,
    dpos_unbound := .ok ⟨1, 2, 4⟩,
    write_csv := .ok () }

/-- A concrete gadget outcome record whose first solver call fails. -/
def example_gadgets : ElectionAnalysisGadgets :=
  { snapshot_data := some (⟨3, 2⟩, 40),
    min_active_stake := 9,
    block_number := 14401871,
    active_era := some 900,
    phrag := .error "boom",
    dpos := .ok ⟨1, 2, 4⟩,
    unbounded_snapshot := .ok (⟨5, 2⟩, 70),
    phrag_unbound := .ok ⟨⟨1, 2, 4⟩⟩,
    dpos_unbound := .ok ⟨1, 2, 4⟩,
    write_csv := .ok () }

/-- C5: on the voter list [(1,20,[1,2]), (2,10,[3]), (3,10,[1,3]),
(4,10,[4,3]), (5,10,[1,3])], SortedTargets::from_voters returns the target
order [4, 2, 1, 3] (ascending aggregate stake, ties by target identifier),
and share_distribution with weight 100 over that order returns
[(4,25), (2,25), (1,25), (3,25)] under ProRata and
[(4,6), (2,6), (1,6), (3,80)] under Pareto. -/
theorem sorted_targets_and_share_distribution_example :
    SortedTargets.from_voters
      [(1, 20, [1, 2]), (2, 10, [3]), (3, 10, [1, 3]), (4, 10, [4, 3]), (5, 10, [1, 3])] =
      [4, 2, 1, 3] ∧
    share_distribution [4, 2, 1, 3] 100 .ProRata =
      some [(4, 25), (2, 25), (1, 25), (3, 25)] ∧
    share_distribution [4, 2, 1, 3] 100 .Pareto =
      some [(4, 6), (2, 6), (1, 6), (3, 80)] := by
  refine ⟨by decide, by decide, by decide⟩

/-- C1: evidence against the claim. On a sorted target list of length 1 the
Pareto split index is floor(1 as f32 * 0.8) = 0, so the bottom partition is
empty, and the source divides twenty_total_share by the empty partition
length: a division by zero, modelled none. The function panics instead of
returning a result, for any weight; weight 100 shown. -/
theorem share_distribution_pareto_single_target_divides_by_zero :
    pareto_split_index 1 = 0 ∧
    share_distribution [1] 100 .Pareto = none := by
  refine ⟨by decide, by decide⟩

/-- Helper: when every remaining weight is zero, the scan loop never lowers
the running minimum. -/
theorem min_active_stake_loop_all_zero (mal : Nat) :
    ∀ (l : List Nat) (acc m seen : Nat), (∀ w ∈ l, w = 0) →
      (min_active_stake_loop mal l acc m seen).1 = m
  | [], _, _, _, _ => by simp [min_active_stake_loop]
  | w :: rest, acc, m, seen, h => by
    have hw : w = 0 := h w (by simp)
    have ih := min_active_stake_loop_all_zero mal rest acc m (seen + 1)
      (fun x hx => h x (by simp [hx]))
    by_cases hcond : acc < mal ∧ seen < 2 * mal
    · simp [min_active_stake_loop, hcond, hw, ih]
    · simp [min_active_stake_loop, hcond]

/-- C3: when every voter weight is zero no nonzero-weight voter is ever
accepted, and min_active_stake returns the u64 maximum sentinel, which is
not 0: the no-active-voter outcome is distinguishable from a genuine minimum
active stake of 0. -/
theorem min_active_stake_all_zero_sentinel (voter_weights : List Nat)
    (maybe_max_len : Option Nat) (h : ∀ w ∈ voter_weights, w = 0) :
    min_active_stake voter_weights maybe_max_len = U64_MAX ∧
    min_active_stake voter_weights maybe_max_len ≠ 0 := by
  have hmain : min_active_stake voter_weights maybe_max_len = U64_MAX := by
    unfold min_active_stake
    exact min_active_stake_loop_all_zero _ voter_weights 0 U64_MAX 0 h
  refine ⟨hmain, ?_⟩
  rw [hmain]
  decide

/-- Witness for C3 at the all-zero list [0, 0, 0] with max length 2. -/
theorem min_active_stake_all_zero_sentinel_witness :
    (∀ w ∈ ([0, 0, 0] : List Nat), w = 0) ∧
    (min_active_stake [0, 0, 0] (some 2) = U64_MAX ∧
     min_active_stake [0, 0, 0] (some 2) ≠ 0) :=
  ⟨by decide, min_active_stake_all_zero_sentinel [0, 0, 0] (some 2) (by decide)⟩

/-- Helper: full characterization of the min_active_stake scan loop. Some k
entries are consumed; the result is the running minimum folded over the
nonzero weights among them, the accepted count grows by the number of those
nonzero weights and stays at most max_allowed_len, the seen counter grows by
exactly k and stays at most twice max_allowed_len, and the loop stops before
the end of the list only when the accepted cap is reached or the seen cap is
reached. -/
theorem min_active_stake_loop_spec (mal : Nat) :
    ∀ (l : List Nat) (acc m seen : Nat), acc ≤ mal →
    ∃ k, k ≤ l.length ∧
      (min_active_stake_loop mal l acc m seen).1 =
        ((l.take k).filter (fun w => w != 0)).foldl (fun a w => if w < a then w else a) m ∧
      (min_active_stake_loop mal l acc m seen).2.1 =
        acc + ((l.take k).filter (fun w => w != 0)).length ∧
      (min_active_stake_loop mal l acc m seen).2.2 = seen + k ∧
      acc + ((l.take k).filter (fun w => w != 0)).length ≤ mal ∧
      (seen ≤ 2 * mal → seen + k ≤ 2 * mal) ∧
      (k < l.length →
        acc + ((l.take k).filter (fun w => w != 0)).length = mal ∨ 2 * mal ≤ seen + k)
  | [], acc, m, seen, hacc => by
    refine ⟨0, by simp, ?_, ?_, ?_, ?_, ?_, ?_⟩ <;>
      simp [min_active_stake_loop, hacc]
  | w :: rest, acc, m, seen, hacc => by
    by_cases hcond : acc < mal ∧ seen < 2 * mal
    · have hunf0 : ∀ a mm s, min_active_stake_loop mal (w :: rest) a mm s =
          if a < mal ∧ s < 2 * mal then
            if w = 0 then min_active_stake_loop mal rest a mm (s + 1)
            else min_active_stake_loop mal rest (a + 1)
              (if w < mm then w else mm) (s + 1)
          else (mm, a, s) := fun a mm s => rfl
      by_cases hw : w = 0
      · obtain ⟨k, hk, h1, h2, h3, h4, h5, h6⟩ :=
          min_active_stake_loop_spec mal rest acc m (seen + 1) hacc
        have hunf : min_active_stake_loop mal (w :: rest) acc m seen =
            min_active_stake_loop mal rest acc m (seen + 1) := by
          rw [hunf0, if_pos hcond, if_pos hw]
        have hfil : ((w :: rest).take (k + 1)).filter (fun x => x != 0) =
            (rest.take k).filter (fun x => x != 0) := by
          subst hw
          simp [List.take_succ_cons]
        refine ⟨k + 1, by simpa using hk, ?_, ?_, ?_, ?_, ?_, ?_⟩
        · rw [hunf, hfil]
          exact h1
        · rw [hunf, hfil]
          exact h2
        · rw [hunf, h3]
          omega
        · rw [hfil]
          exact h4
        · intro _
          have := h5 (by omega)
          omega
        · intro hlt
          rw [hfil]
          have := h6 (by simpa using hlt)
          omega
      · obtain ⟨k, hk, h1, h2, h3, h4, h5, h6⟩ :=
          min_active_stake_loop_spec mal rest (acc + 1)
            (if w < m then w else m) (seen + 1) hcond.1
        have hunf : min_active_stake_loop mal (w :: rest) acc m seen =
            min_active_stake_loop mal rest (acc + 1)
              (if w < m then w else m) (seen + 1) := by
          rw [hunf0, if_pos hcond, if_neg hw]
        have hfil : ((w :: rest).take (k + 1)).filter (fun x => x != 0) =
            w :: (rest.take k).filter (fun x => x != 0) := by
          simp [List.take_succ_cons, List.filter_cons, hw]
        refine ⟨k + 1, by simpa using hk, ?_, ?_, ?_, ?_, ?_, ?_⟩
        · rw [hunf, hfil, List.foldl_cons]
          exact h1
        · rw [hunf, hfil]
          simp only [List.length_cons]
          omega
        · rw [hunf, h3]
          omega
        · rw [hfil]
          simp only [List.length_cons]
          omega
        · intro _
          have := h5 (by omega)
          omega
        · intro hlt
          rw [hfil]
          simp only [List.length_cons]
          have := h6 (by simpa using hlt)
          omega
    · have hunf : min_active_stake_loop mal (w :: rest) acc m seen = (m, acc, seen) := by
        have : min_active_stake_loop mal (w :: rest) acc m seen =
            if acc < mal ∧ seen < 2 * mal then
              if w = 0 then min_active_stake_loop mal rest acc m (seen + 1)
              else min_active_stake_loop mal rest (acc + 1)
                (if w < m then w else m) (seen + 1)
            else (m, acc, seen) := rfl
        rw [this, if_neg hcond]
      refine ⟨0, by simp, ?_, ?_, ?_, ?_, ?_, ?_⟩
      · simp [hunf]
      · simp [hunf]
      · simp [hunf]
      · simpa using hacc
      · intro h
        omega
      · intro _
        rcases Nat.lt_or_ge acc mal with hlt | hge
        · right
          omega
        · left
          simp only [List.take_zero, List.filter_nil, List.length_nil, Nat.add_zero]
          omega

/-- C9: min_active_stake caps max_allowed_len at
min(max_len.unwrap_or(total), total); the scan consumes some k entries of
the sorted list with k at most the list length and at most
2 * max_allowed_len, accepts exactly the nonzero weights among them (at most
max_allowed_len accepted voters), returns the minimum tracked over those
nonzero weights starting from the u64 maximum, and stops before the end of
the list only when max_allowed_len voters were accepted or the seen counter
reached 2 * max_allowed_len. -/
theorem min_active_stake_scan_invariants (voter_weights : List Nat)
    (maybe_max_len : Option Nat) :
    ∃ k, k ≤ voter_weights.length ∧
      k ≤ 2 * min (maybe_max_len.getD voter_weights.length) voter_weights.length ∧
      min_active_stake voter_weights maybe_max_len =
        ((voter_weights.take k).filter (fun w => w != 0)).foldl
          (fun a w => if w < a then w else a) U64_MAX ∧
      min_active_stake_loop
          (min (maybe_max_len.getD voter_weights.length) voter_weights.length)
          voter_weights 0 U64_MAX 0 =
        (min_active_stake voter_weights maybe_max_len,
         ((voter_weights.take k).filter (fun w => w != 0)).length,
         k) ∧
      ((voter_weights.take k).filter (fun w => w != 0)).length ≤
        min (maybe_max_len.getD voter_weights.length) voter_weights.length ∧
      (k < voter_weights.length →
        ((voter_weights.take k).filter (fun w => w != 0)).length =
          min (maybe_max_len.getD voter_weights.length) voter_weights.length ∨
        2 * min (maybe_max_len.getD voter_weights.length) voter_weights.length ≤ k) := by
  obtain ⟨k, hk, h1, h2, h3, h4, h5, h6⟩ :=
    min_active_stake_loop_spec
      (min ((maybe_max_len.getD voter_weights.length)) voter_weights.length)
      voter_weights 0 U64_MAX 0 (Nat.zero_le _)
  have hdef : min_active_stake voter_weights maybe_max_len =
      (min_active_stake_loop
        (min (maybe_max_len.getD voter_weights.length) voter_weights.length)
        voter_weights 0 U64_MAX 0).1 := rfl
  refine ⟨k, hk, ?_, ?_, ?_, ?_, ?_⟩
  · have := h5 (Nat.zero_le _)
    omega
  · rw [hdef, h1]
  · have hsplit : min_active_stake_loop
        (min (maybe_max_len.getD voter_weights.length) voter_weights.length)
        voter_weights 0 U64_MAX 0 =
        ((min_active_stake_loop
            (min (maybe_max_len.getD voter_weights.length) voter_weights.length)
            voter_weights 0 U64_MAX 0).1,
         (min_active_stake_loop
            (min (maybe_max_len.getD voter_weights.length) voter_weights.length)
            voter_weights 0 U64_MAX 0).2.1,
         (min_active_stake_loop
            (min (maybe_max_len.getD voter_weights.length) voter_weights.length)
            voter_weights 0 U64_MAX 0).2.2) := rfl
    rw [hsplit, hdef, h2, h3]
    simp
  · simpa using h4
  · intro hlt
    have := h6 hlt
    omega

/-- Witness for C9 at the sorted weight list [0, 5, 0, 0, 7] with max
length 2: the cap is 2, the loop stops after seeing 4 entries (twice the
cap) with a single accepted voter and result 5. -/
theorem min_active_stake_scan_invariants_witness :
    min_active_stake [0, 5, 0, 0, 7] (some 2) = 5 ∧
    (∃ k, k ≤ ([0, 5, 0, 0, 7] : List Nat).length ∧
      k ≤ 2 * min ((some 2).getD ([0, 5, 0, 0, 7] : List Nat).length)
        ([0, 5, 0, 0, 7] : List Nat).length ∧
      min_active_stake [0, 5, 0, 0, 7] (some 2) =
        ((([0, 5, 0, 0, 7] : List Nat).take k).filter (fun w => w != 0)).foldl
          (fun a w => if w < a then w else a) U64_MAX ∧
      min_active_stake_loop
          (min ((some 2).getD ([0, 5, 0, 0, 7] : List Nat).length)
            ([0, 5, 0, 0, 7] : List Nat).length)
          [0, 5, 0, 0, 7] 0 U64_MAX 0 =
        (min_active_stake [0, 5, 0, 0, 7] (some 2),
         ((([0, 5, 0, 0, 7] : List Nat).take k).filter (fun w => w != 0)).length,
         k) ∧
      ((([0, 5, 0, 0, 7] : List Nat).take k).filter (fun w => w != 0)).length ≤
        min ((some 2).getD ([0, 5, 0, 0, 7] : List Nat).length)
          ([0, 5, 0, 0, 7] : List Nat).length ∧
      (k < ([0, 5, 0, 0, 7] : List Nat).length →
        ((([0, 5, 0, 0, 7] : List Nat).take k).filter (fun w => w != 0)).length =
          min ((some 2).getD ([0, 5, 0, 0, 7] : List Nat).length)
            ([0, 5, 0, 0, 7] : List Nat).length ∨
        2 * min ((some 2).getD ([0, 5, 0, 0, 7] : List Nat).length)
          ([0, 5, 0, 0, 7] : List Nat).length ≤ k)) :=
  ⟨by decide, min_active_stake_scan_invariants [0, 5, 0, 0, 7] (some 2)⟩

/-- Helper: skipped voters (zero stake or empty target list) do not change
the assignment construction and never make it fail: filtering them away
first yields the same outcome. -/
theorem dpos_assignments_filter_good (sorted_targets : List AccountId)
    (distribution_type : ShareDistribution) :
    ∀ l : List (AccountId × Nat × List AccountId),
      dpos_assignments sorted_targets distribution_type (l.filter good_voter) =
        dpos_assignments sorted_targets distribution_type l
  | [] => rfl
  | v :: rest => by
    have ih := dpos_assignments_filter_good sorted_targets distribution_type rest
    by_cases hv : good_voter v
    · simp [List.filter_cons, hv, dpos_assignments, ih]
    · simp [List.filter_cons, hv, dpos_assignments, ih]

/-- C4: in mine_dpos, every voter with zero stake or an empty target list is
skipped without causing failure (removing them beforehand changes nothing),
and whenever the miner returns a score, that score is the evaluation of
exactly the top desired_targets supports, whose count never exceeds
desired_targets; the discarded supports do not contribute. -/
theorem mine_dpos_skip_and_winner_bound (voters : List (AccountId × Nat × List AccountId))
    (desired_targets : Nat) (distribution_type : ShareDistribution) :
    dpos_assignments (SortedTargets.from_voters voters) distribution_type
        (voters.filter good_voter) =
      dpos_assignments (SortedTargets.from_voters voters) distribution_type voters ∧
    (∀ score, mine_dpos voters desired_targets distribution_type = some score →
      ∃ assignments,
        dpos_assignments (SortedTargets.from_voters voters) distribution_type voters =
          some assignments ∧
        (dpos_winners (to_supports assignments) desired_targets).length ≤ desired_targets ∧
        score = evaluate (dpos_winners (to_supports assignments) desired_targets)) := by
  refine ⟨dpos_assignments_filter_good _ _ voters, ?_⟩
  intro score h
  have h2 : (match dpos_assignments (SortedTargets.from_voters voters)
      distribution_type voters with
    | none => none
    | some assignments =>
      some (evaluate (dpos_winners (to_supports assignments) desired_targets))) =
      some score := h
  cases hda : dpos_assignments (SortedTargets.from_voters voters) distribution_type voters with
  | none =>
    rw [hda] at h2
    exact absurd h2 (by simp)
  | some assignments =>
    rw [hda] at h2
    refine ⟨assignments, rfl, ?_, ?_⟩
    · exact List.length_take_le _ _
    · simpa using h2.symm

/-- Witness for C4 on a voter list with one good voter, one zero-stake voter
and one voter with no targets, under ProRata with one desired target. -/
theorem mine_dpos_skip_and_winner_bound_witness :
    mine_dpos [(1, 20, [1, 2]), (2, 0, [1]), (3, 5, [])] 1 .ProRata =
      some ⟨10, 10, 100⟩ ∧
    (∃ assignments,
      dpos_assignments
          (SortedTargets.from_voters [(1, 20, [1, 2]), (2, 0, [1]), (3, 5, [])])
          .ProRata [(1, 20, [1, 2]), (2, 0, [1]), (3, 5, [])] =
        some assignments ∧
      (dpos_winners (to_supports assignments) 1).length ≤ 1 ∧
      (⟨10, 10, 100⟩ : ElectionScore) =
        evaluate (dpos_winners (to_supports assignments) 1)) :=
  ⟨by decide,
   (mine_dpos_skip_and_winner_bound [(1, 20, [1, 2]), (2, 0, [1]), (3, 5, [])]
      1 .ProRata).2 ⟨10, 10, 100⟩ (by decide)⟩

/-- C6: counterexample. With one Bonded pair (stash 1, controller 10) and a
ledger at controller 10 whose embedded stash is 2, the pair lands both in
the inconsistent-stash list and in the ok list, so the three lists hold two
entries for one Bonded pair: they do not partition the Bonded entries. -/
theorem bonded_checks_not_partition_counterexample :
    bonded_checks [(1, 10)] (fun c => if c = 10 then some ⟨2⟩ else none) =
      ([], [(1, 2)], [1]) ∧
    (bonded_checks [(1, 10)] (fun c => if c = 10 then some ⟨2⟩ else none)).1.length +
      (bonded_checks [(1, 10)] (fun c => if c = 10 then some ⟨2⟩ else none)).2.1.length +
      (bonded_checks [(1, 10)] (fun c => if c = 10 then some ⟨2⟩ else none)).2.2.length ≠
      [(1, 10)].length := by
  refine ⟨by decide, by decide⟩

/-- C6 as amended: every Bonded pair with no ledger at its controller goes to
the no-ledger list; every pair with a ledger goes to the ok list, and
additionally to the inconsistent-stash list when the embedded stash differs
from the outer stash; hence the no-ledger and ok lists partition the Bonded
entries while the inconsistent-stash entries are duplicated into ok. -/
theorem bonded_checks_classification (bonded : List (AccountId × AccountId))
    (ledger : AccountId → Option StakingLedger) :
    (bonded_checks bonded ledger).1 =
      bonded.filter (fun p => (ledger p.2).isNone) ∧
    (bonded_checks bonded ledger).2.2 =
      (bonded.filter (fun p => (ledger p.2).isSome)).map Prod.fst ∧
    (bonded_checks bonded ledger).2.1 =
      bonded.filterMap (fun p =>
        match ledger p.2 with
        | some l => if l.stash ≠ p.1 then some (p.1, l.stash) else none
        | none => none) ∧
    (bonded_checks bonded ledger).1.length + (bonded_checks bonded ledger).2.2.length =
      bonded.length := by
  induction bonded with
  | nil => exact ⟨rfl, rfl, rfl, rfl⟩
  | cons p rest ih =>
    obtain ⟨ih1, ih2, ih3, ih4⟩ := ih
    obtain ⟨s, c⟩ := p
    have hlen : (rest.filter (fun p => (ledger p.2).isNone)).length +
        (rest.filter (fun p => (ledger p.2).isSome)).length = rest.length := by
      have h := ih4
      rw [ih1, ih2] at h
      simpa using h
    cases hl : ledger c with
    | none =>
      refine ⟨?_, ?_, ?_, ?_⟩
      · simp [bonded_checks, hl, ih1, List.filter_cons]
      · simp [bonded_checks, hl, ih2, List.filter_cons]
      · simp [bonded_checks, hl, ih3, List.filterMap_cons]
      · simp [bonded_checks, hl, ih1, ih2, List.filter_cons]
        omega
    | some l =>
      by_cases hst : l.stash = s
      · refine ⟨?_, ?_, ?_, ?_⟩
        · simp [bonded_checks, hl, hst, ih1, List.filter_cons]
        · simp [bonded_checks, hl, hst, ih2, List.filter_cons]
        · simp [bonded_checks, hl, hst, ih3, List.filterMap_cons]
        · simp [bonded_checks, hl, hst, ih1, ih2, List.filter_cons]
          omega
      · refine ⟨?_, ?_, ?_, ?_⟩
        · simp [bonded_checks, hl, hst, ih1, List.filter_cons]
        · simp [bonded_checks, hl, hst, ih2, List.filter_cons]
        · simp [bonded_checks, hl, hst, ih3, List.filterMap_cons]
        · simp [bonded_checks, hl, hst, ih1, ih2, List.filter_cons]
          omega

/-- C10: in ledger_checks a stash is reported bad exactly when Bonded at the
embedded ledger stash is absent or holds a controller different from the
iterated Ledger key: the bad list is the stash projection of the Ledger
entries whose Bonded back-pointer is not their own controller key. -/
theorem ledger_checks_bad_stash_characterization
    (ledgers : List (AccountId × StakingLedger)) (bonded : AccountId → Option AccountId) :
    ledger_checks ledgers bonded =
      (ledgers.filter (fun p => bonded p.2.stash != some p.1)).map
        (fun p => p.2.stash) := by
  induction ledgers with
  | nil => rfl
  | cons p rest ih =>
    obtain ⟨c, l⟩ := p
    cases hb : bonded l.stash with
    | none => simp [ledger_checks, hb, ih, List.filter_cons]
    | some bc =>
      by_cases hc : c = bc
      · simp [ledger_checks, hb, hc, ih, List.filter_cons]
      · have hc2 : ¬ bc = c := fun h => hc h.symm
        simp [ledger_checks, hb, hc, hc2, ih, List.filter_cons]

/-- C2: processing a batch entry (stash, controller) of the no-ledger class,
the migration simulation looks the ledger up by the controller key on the
parent state; a missing ledger there makes the whole simulation a hard
failure, and otherwise the step self-bonds the stash, removes the Ledger
entry at the controller key and inserts the ledger at the stash key before
the rest of the batch runs on the updated state. -/
theorem deprecate_controller_spec (st : StakingState) (stash controller : AccountId)
    (rest : List (AccountId × AccountId)) :
    (st.ledger controller = none →
      deprecate_controller_simulation ((stash, controller) :: rest) st = none) ∧
    (∀ l, st.ledger controller = some l →
      ∃ st2, deprecate_controller_step st stash controller = some st2 ∧
        deprecate_controller_simulation ((stash, controller) :: rest) st =
          deprecate_controller_simulation rest st2 ∧
        st2.bonded stash = some stash ∧
        st2.ledger stash = some l ∧
        (stash ≠ controller → st2.ledger controller = none)) := by
  constructor
  · intro h
    simp [deprecate_controller_simulation, deprecate_controller_step, h]
  · intro l h
    refine ⟨{ bonded := map_insert st.bonded stash stash,
              ledger := map_insert (map_remove st.ledger controller) stash l },
            ?_, ?_, ?_, ?_, ?_⟩
    · simp [deprecate_controller_step, h]
    · simp [deprecate_controller_simulation, deprecate_controller_step, h]
    · simp [map_insert]
    · simp [map_insert]
    · intro hne
      have hcs : ¬ controller = stash := fun hx => hne hx.symm
      simp [map_insert, map_remove, hcs]

/-- Witness for C2: parent state with a single ledger at controller key 10
embedding stash 7, batch entry (7, 10). -/
theorem deprecate_controller_spec_witness :
    deprecate_example_state.ledger 10 = some ⟨7⟩ ∧
    (∃ st2, deprecate_controller_step deprecate_example_state 7 10 = some st2 ∧
      deprecate_controller_simulation [(7, 10)] deprecate_example_state =
        deprecate_controller_simulation [] st2 ∧
      st2.bonded 7 = some 7 ∧
      st2.ledger 7 = some ⟨7⟩ ∧
      ((7 : AccountId) ≠ 10 → st2.ledger 10 = none)) :=
  ⟨rfl, (deprecate_controller_spec deprecate_example_state 7 10 []).2 ⟨7⟩ rfl⟩

/-- C7: counterexample. When the bounded snapshot computation
(snapshot_data_or_force, the first step of election_analysis) fails, the
operation does not return that error: the unwrap of create_snapshot and the
expect calls inside the gadget panic, aborting the run, modelled by the
outer none, which is not an error-returning outcome some (error e, entry).
write_csv is still never called. -/
theorem election_analysis_snapshot_panic_counterexample :
    panic_gadgets.snapshot_data = none ∧
    election_analysis panic_gadgets = none :=
  ⟨rfl, rfl⟩

/-- C7 as amended: a failure of the bounded snapshot computation panics
instead of returning an error, and election_analysis then produces nothing;
for the Result-returning steps (Phragmen mining, DPoS mining,
unbounded-snapshot recomputation and their unbounded re-runs) the first
error is returned as the outcome of the operation before write_csv is
called; in every failure case write_csv never runs, so no partial CSV row
is written, and the entry reaches write_csv exactly when the snapshot step
did not panic and all five fallible steps succeeded. -/
theorem election_analysis_no_partial_csv (g : ElectionAnalysisGadgets) :
    (election_analysis g = none ↔ g.snapshot_data = none) ∧
    (∀ e, (∃ sd, g.snapshot_data = some sd) → g.phrag = .error e →
      election_analysis g = some (.error e, none)) ∧
    (∀ e, (∃ sd, g.snapshot_data = some sd) → g.dpos = .error e →
      (∃ x, g.phrag = .ok x) → election_analysis g = some (.error e, none)) ∧
    (∀ e, (∃ sd, g.snapshot_data = some sd) → g.unbounded_snapshot = .error e →
      (∃ x, g.phrag = .ok x) → (∃ x, g.dpos = .ok x) →
      election_analysis g = some (.error e, none)) ∧
    (∀ e, (∃ sd, g.snapshot_data = some sd) → g.phrag_unbound = .error e →
      (∃ x, g.phrag = .ok x) → (∃ x, g.dpos = .ok x) →
      (∃ x, g.unbounded_snapshot = .ok x) →
      election_analysis g = some (.error e, none)) ∧
    (∀ e, (∃ sd, g.snapshot_data = some sd) → g.dpos_unbound = .error e →
      (∃ x, g.phrag = .ok x) → (∃ x, g.dpos = .ok x) →
      (∃ x, g.unbounded_snapshot = .ok x) → (∃ x, g.phrag_unbound = .ok x) →
      election_analysis g = some (.error e, none)) ∧
    (∀ r entry, election_analysis g = some (r, some entry) →
      (∃ sd, g.snapshot_data = some sd) ∧
      (∃ x, g.phrag = .ok x) ∧ (∃ x, g.dpos = .ok x) ∧
      (∃ x, g.unbounded_snapshot = .ok x) ∧ (∃ x, g.phrag_unbound = .ok x) ∧
      (∃ x, g.dpos_unbound = .ok x)) := by
  refine ⟨?_, ?_, ?_, ?_, ?_, ?_, ?_⟩
  · cases h0 : g.snapshot_data with
    | none => simp [election_analysis, h0]
    | some sd =>
      simp only [h0, reduceCtorEq, iff_false]
      cases h1 : g.phrag with
      | error e => simp [election_analysis, h0, h1]
      | ok x1 =>
        cases h2 : g.dpos with
        | error e => simp [election_analysis, h0, h1, h2]
        | ok x2 =>
          cases h3 : g.unbounded_snapshot with
          | error e => simp [election_analysis, h0, h1, h2, h3]
          | ok x3 =>
            cases h4 : g.phrag_unbound with
            | error e => simp [election_analysis, h0, h1, h2, h3, h4]
            | ok x4 =>
              cases h5 : g.dpos_unbound with
              | error e => simp [election_analysis, h0, h1, h2, h3, h4, h5]
              | ok x5 => simp [election_analysis, h0, h1, h2, h3, h4, h5]
  · rintro e ⟨sd, h0⟩ he
    simp [election_analysis, h0, he]
  · rintro e ⟨sd, h0⟩ he ⟨x1, h1⟩
    simp [election_analysis, h0, h1, he]
  · rintro e ⟨sd, h0⟩ he ⟨x1, h1⟩ ⟨x2, h2⟩
    simp [election_analysis, h0, h1, h2, he]
  · rintro e ⟨sd, h0⟩ he ⟨x1, h1⟩ ⟨x2, h2⟩ ⟨x3, h3⟩
    simp [election_analysis, h0, h1, h2, h3, he]
  · rintro e ⟨sd, h0⟩ he ⟨x1, h1⟩ ⟨x2, h2⟩ ⟨x3, h3⟩ ⟨x4, h4⟩
    simp [election_analysis, h0, h1, h2, h3, h4, he]
  · intro r entry hre
    cases h0 : g.snapshot_data with
    | none => exact absurd hre (by simp [election_analysis, h0])
    | some sd =>
      refine ⟨⟨sd, rfl⟩, ?_⟩
      cases h1 : g.phrag with
      | error e =>
        exact absurd hre (by simp [election_analysis, h0, h1])
      | ok x1 =>
        cases h2 : g.dpos with
        | error e =>
          exact absurd hre (by simp [election_analysis, h0, h1, h2])
        | ok x2 =>
          cases h3 : g.unbounded_snapshot with
          | error e =>
            exact absurd hre (by simp [election_analysis, h0, h1, h2, h3])
          | ok x3 =>
            cases h4 : g.phrag_unbound with
            | error e =>
              exact absurd hre (by simp [election_analysis, h0, h1, h2, h3, h4])
            | ok x4 =>
              cases h5 : g.dpos_unbound with
              | error e =>
                exact absurd hre (by simp [election_analysis, h0, h1, h2, h3, h4, h5])
              | ok x5 =>
                exact ⟨⟨x1, rfl⟩, ⟨x2, rfl⟩, ⟨x3, rfl⟩, ⟨x4, rfl⟩, ⟨x5, rfl⟩⟩

/-- Witness for C7 on a gadget record whose snapshot computation succeeded
and whose Phragmen mining step fails with the message boom: the analysis
returns that error and no CSV entry exists. -/
theorem election_analysis_no_partial_csv_witness :
    example_gadgets.phrag = .error "boom" ∧
    election_analysis example_gadgets = some (.error "boom", none) :=
  ⟨rfl, (election_analysis_no_partial_csv example_gadgets).2.1 "boom"
    ⟨(⟨3, 2⟩, 40), rfl⟩ rfl⟩

/-- C8: counterexample. A failed transform command is logged and then
unwrapped by main, and unwrap on the logged-away error panics: the first
component none models the process crash, refuting the claim that the host
process does not crash. -/
theorem main_failed_run_crashes_counterexample :
    (main_handle_transform (.error "boom")).1 = none ∧
    (main_handle_transform (.error "boom")).2 = ["Transform error: boom"] :=
  ⟨rfl, rfl⟩

/-- C8 as amended: when an extract or transform command fails, the host
process logs the error and then crashes (the unwrap in main panics); a
single invocation performs exactly one command, so no later run exists to
proceed to. -/
theorem main_failed_run_logs_then_panics (e : String) :
    main_handle_transform (.error e) = (none, ["Transform error: " ++ e]) ∧
    main_handle_extract (.error e) = (none, ["Extract error: " ++ e]) :=
  ⟨rfl, rfl⟩
